import Mathlib

/-!
Shallow embedding of the fairview repository's risk-fusion and orchestration
core (src/main.rs, src/config.rs, src/process_monitor.rs,
src/hardware_detector.rs, src/vm_detector.rs).

Rust `f64` values are modelled as `ℚ`: every numeric operation the core
performs on scores (addition of decimal constants, multiplication,
`min`/`max`/`clamp`, comparisons) is exact at the magnitudes involved, so the
rational model reproduces the source arithmetic.  OS-level evidence gathering
(process enumeration, display enumeration, CPUID, network interfaces, file IO)
is out of scope per the spec; each such probe is an explicit input to the
function that consumes it.  Rust `panic` and `catch_unwind` are modelled by
the `ModRun` outcome of a module invocation.
-/

namespace Fairview

/-- Rust `str::to_lowercase` (all strings involved are ASCII), implemented
structurally over the character list. -/
def lowerStr (s : String) : String :=
  String.mk (s.data.map Char.toLower)

/-- Boolean test that the first list is a prefix of the second. -/
def prefixAt : List Char → List Char → Bool
  | [], _ => true
  | _ :: _, [] => false
  | a :: as, b :: bs => (a == b) && prefixAt as bs

/-- Boolean test that the first list occurs contiguously inside the second. -/
def infixAt : List Char → List Char → Bool
  | pat, [] => pat.isEmpty
  | pat, b :: bs => prefixAt pat (b :: bs) || infixAt pat bs

/-- Rust `str::contains(pattern)`: substring test. -/
def strContains (s pat : String) : Bool :=
  infixAt pat.data s.data

/-- Rust `str::starts_with(pattern)`. -/
def strStartsWith (s pre : String) : Bool :=
  prefixAt pre.data s.data

/-- Rust `str::to_uppercase` (ASCII). -/
def upperStr (s : String) : String :=
  String.mk (s.data.map Char.toUpper)

/- ----------------------------------------------------------------
   src/config.rs : data model
   ---------------------------------------------------------------- -/

/-- ScanConfig from src/config.rs. -/
structure ScanConfig where
  interval_seconds : Nat
  risk_threshold : ℚ
  interview_type : String
deriving Repr

/-- WeightsConfig from src/config.rs. -/
structure WeightsConfig where
  process_risk : ℚ
  overlay_risk : ℚ
  audio_risk : ℚ
  hardware_risk : ℚ
  vm_risk : ℚ
deriving Repr

/-- ThresholdsConfig from src/config.rs. -/
structure ThresholdsConfig where
  process_threshold : ℚ
  hardware_threshold : ℚ
  audio_threshold : ℚ
  overlay_threshold : ℚ
deriving Repr

/-- WhitelistConfig from src/config.rs. -/
structure WhitelistConfig where
  processes : List String
  directories : List String
deriving Repr

/-- MonitoringConfig from src/config.rs. -/
structure MonitoringConfig where
  enable_process_monitoring : Bool
  enable_hardware_monitoring : Bool
  enable_audio_monitoring : Bool
  enable_overlay_monitoring : Bool
  enable_vm_detection : Bool
  collect_baseline : Bool
  baseline_duration_seconds : Nat
  continue_on_module_failure : Bool
deriving Repr

/-- Config from src/config.rs. -/
structure Config where
  scan : ScanConfig
  weights : WeightsConfig
  thresholds : ThresholdsConfig
  whitelist : WhitelistConfig
  monitoring : MonitoringConfig
deriving Repr

/-- Renders a rational with two decimal digits, standing in for Rust's
`format!("{:.2}", x)` used in the weight-sum error message. -/
def fmt2 (q : ℚ) : String :=
  let cents : Int := Rat.floor (q * 100 + 1 / 2)
  let whole := cents / 100
  let frac := (cents % 100).natAbs
  toString whole ++ "." ++ (if frac < 10 then "0" else "") ++ toString frac

/-- Config::default from src/config.rs. -/
def Config.default : Config :=
  { scan := { interval_seconds := 30, risk_threshold := 0.5, interview_type := "coding" }
    weights := { process_risk := 0.30, overlay_risk := 0.20, audio_risk := 0.10,
                 hardware_risk := 0.15, vm_risk := 0.25 }
    thresholds := { process_threshold := 0.6, hardware_threshold := 0.5,
                    audio_threshold := 0.3, overlay_threshold := 0.4 }
    whitelist := { processes := ["code.exe", "vscode.exe", "chrome.exe", "firefox.exe", "msedge.exe"],
                   directories := ["C:\\Program Files\\Git", "C:\\Windows\\System32", "/usr/bin", "/Applications"] }
    monitoring := { enable_process_monitoring := true, enable_hardware_monitoring := true,
                    enable_audio_monitoring := true, enable_overlay_monitoring := true,
                    enable_vm_detection := true, collect_baseline := true,
                    baseline_duration_seconds := 10, continue_on_module_failure := true } }

/-- Config::validate from src/config.rs. -/
def Config.validate (c : Config) : Except String Unit :=
  let weight_sum := c.weights.process_risk + c.weights.overlay_risk + c.weights.audio_risk
    + c.weights.hardware_risk + c.weights.vm_risk
  if 0.01 < |weight_sum - 1| then
    Except.error ("Weights must sum to 1.0, got " ++ fmt2 weight_sum)
  else if c.weights.process_risk < 0 ∨ c.weights.overlay_risk < 0 ∨ c.weights.audio_risk < 0
      ∨ c.weights.hardware_risk < 0 ∨ c.weights.vm_risk < 0 then
    Except.error "All weights must be positive"
  else if c.scan.risk_threshold < 0 ∨ 1 < c.scan.risk_threshold then
    Except.error "risk_threshold must be between 0.0 and 1.0"
  else
    Except.ok ()

/-- Config::from_file from src/config.rs.  File reading and TOML parsing are
external IO; their outcome is the `parsed` argument (an error for an
unreadable or unparsable file, `Except.ok` with the decoded config
otherwise).  `from_file` then validates the decoded config. -/
def Config.from_file (parsed : Except String Config) : Except String Config :=
  match parsed with
  | Except.error e => Except.error e
  | Except.ok config =>
    match config.validate with
    | Except.error e => Except.error e
    | Except.ok _ => Except.ok config

/-- Config resolution performed by main() in src/main.rs: a config file that
fails to load or validate is replaced by `Config::default()` (after printing a
warning and saving the default to disk) and the program continues. -/
def mainStartup (parsed : Except String Config) : Config :=
  match Config.from_file parsed with
  | Except.ok cfg => cfg
  | Except.error _ => Config.default

/- ----------------------------------------------------------------
   src/main.rs : core data model
   ---------------------------------------------------------------- -/

/-- Process from src/main.rs. -/
structure Process where
  pid : Nat
  name : String
  path : String
deriving Repr

/-- SuspiciousProcess from src/main.rs. -/
structure SuspiciousProcess where
  pid : Nat
  name : String
  path : String
  risk_score : ℚ
  reasons : List String
  started_during_interview : Bool
  is_whitelisted : Bool
deriving Repr

/-- OverlayWindow from src/main.rs. -/
structure OverlayWindow where
  handle : Nat
  position : Int × Int
  size : Nat × Nat
  owner_pid : Nat
  is_transparent : Bool
  is_topmost : Bool
deriving Repr

/- ----------------------------------------------------------------
   src/process_monitor.rs
   ---------------------------------------------------------------- -/

/-- ProcessBaseline from src/process_monitor.rs.  `start_time : SystemTime`
is modelled as an abstract tick count (it is stored and never read). -/
structure ProcessBaseline where
  name : String
  path : String
  start_time : Nat
deriving Repr

/-- ProcessMonitor state from src/process_monitor.rs: the
`HashMap<u32, ProcessBaseline>` is modelled as an association list in which
the most recent binding for a pid shadows earlier ones, reproducing
`HashMap::insert` replacement semantics for every lookup the code performs. -/
structure ProcessMonitor where
  baseline_processes : List (Nat × ProcessBaseline)
  config : Config

/-- `HashMap::insert` on the association-list model. -/
def insertBaseline (m : List (Nat × ProcessBaseline)) (pid : Nat) (b : ProcessBaseline) :
    List (Nat × ProcessBaseline) :=
  (pid, b) :: m

/-- ProcessMonitor::new from src/process_monitor.rs. -/
def ProcessMonitor.new (config : Config) : ProcessMonitor :=
  { baseline_processes := [], config := config }

/-- ProcessMonitor::collect_baseline from src/process_monitor.rs.  The fresh
process snapshot (`get_all_processes`, an OS probe) is the `processes`
argument; `now` stands for `SystemTime::now()`.  Every observed process is
inserted into the existing baseline map (the map is not cleared first). -/
def ProcessMonitor.collect_baseline (pm : ProcessMonitor) (processes : List Process)
    (now : Nat) : ProcessMonitor :=
  { pm with
    baseline_processes :=
      processes.foldl
        (fun m p => insertBaseline m p.pid { name := p.name, path := p.path, start_time := now })
        pm.baseline_processes }

/-- ProcessMonitor::was_in_baseline from src/process_monitor.rs
(`HashMap::contains_key`). -/
def ProcessMonitor.was_in_baseline (pm : ProcessMonitor) (pid : Nat) : Bool :=
  pm.baseline_processes.any (fun e => e.1 == pid)

/-- ProcessMonitor::is_whitelisted from src/process_monitor.rs. -/
def ProcessMonitor.is_whitelisted (pm : ProcessMonitor) (process : Process) : Bool :=
  let name_lower := lowerStr process.name
  let path_lower := lowerStr process.path
  pm.config.whitelist.processes.any (fun w => strContains name_lower (lowerStr w))
  || pm.config.whitelist.directories.any (fun d => strStartsWith path_lower (lowerStr d))

/- ----------------------------------------------------------------
   src/hardware_detector.rs
   ---------------------------------------------------------------- -/

/-- ConnectionType from src/hardware_detector.rs. -/
inductive ConnectionType where
  | HDMI
  | DisplayPort
  | USB
  | Virtual
  | Wireless
  | Unknown
deriving Repr, DecidableEq, BEq

/-- DisplayInfo from src/hardware_detector.rs. -/
structure DisplayInfo where
  id : String
  name : String
  width : Nat
  height : Nat
  is_primary : Bool
  connection_type : ConnectionType
deriving Repr

/-- DisplayConfiguration from src/hardware_detector.rs. -/
structure DisplayConfiguration where
  display_count : Nat
  displays : List DisplayInfo
  has_virtual_display : Bool
  has_hdmi_splitter_signature : Bool
deriving Repr

/-- HardwareSuspicion from src/hardware_detector.rs; the
`HashMap<String, String>` detail map is an association list (its keys are
distinct everywhere the code inserts). -/
structure HardwareSuspicion where
  risk_score : ℚ
  flags : List String
  details : List (String × String)
deriving Repr

/-- HardwareDetector state from src/hardware_detector.rs. -/
structure HardwareDetector where
  baseline_displays : Option DisplayConfiguration

/-- HardwareDetector::new from src/hardware_detector.rs. -/
def HardwareDetector.new : HardwareDetector :=
  { baseline_displays := none }

/-- HardwareDetector::set_baseline from src/hardware_detector.rs; the
platform display probe (`get_current_display_configuration`) is the
`current` argument. -/
def HardwareDetector.set_baseline (hd : HardwareDetector)
    (current : Except String DisplayConfiguration) :
    HardwareDetector × Except String Unit :=
  match current with
  | Except.ok config => ({ baseline_displays := some config }, Except.ok ())
  | Except.error e => (hd, Except.error e)

/-- HardwareDetector::get_baseline from src/hardware_detector.rs. -/
def HardwareDetector.get_baseline (hd : HardwareDetector) : Option DisplayConfiguration :=
  hd.baseline_displays

/-- Rust `f64::clamp(0.0, 1.0)`. -/
def clamp01 (x : ℚ) : ℚ := min (max x 0) 1

/-- HardwareDetector::detect_hardware_cheating from src/hardware_detector.rs.
The display probe outcome is `current`; `remote_active` is the result of the
platform `detect_remote_desktop_active` probe.  Accumulation is threaded as a
(risk, flags) pair in exactly the source's evaluation order. -/
def HardwareDetector.detect_hardware_cheating (hd : HardwareDetector)
    (current : Except String DisplayConfiguration) (remote_active : Bool) :
    HardwareSuspicion :=
  match current with
  | Except.error e =>
    { risk_score := 0
      flags := ["Unable to detect display configuration: " ++ e]
      details := [("error", "display_detection_failed")] }
  | Except.ok current_config =>
    let details := [("display_count", toString current_config.display_count)]
    let s0 : ℚ × List String := (0, [])
    let s1 := if current_config.has_hdmi_splitter_signature then
        (s0.1 + 0.7, s0.2 ++ ["HDMI splitter signature detected"]) else s0
    let s2 := if current_config.has_virtual_display then
        (s1.1 + 0.5, s1.2 ++ ["Virtual display detected"]) else s1
    let s3 := if 1 < current_config.display_count then
        (s2.1 + (if current_config.display_count == 2 then 0.05 else 0.15),
         s2.2 ++ ["Multiple displays detected: " ++ toString current_config.display_count ++ " displays"])
      else s2
    let s4 := match hd.baseline_displays with
      | some baseline =>
        let sa := if baseline.display_count != current_config.display_count then
            (s3.1 + 0.4,
             s3.2 ++ ["Display configuration changed during interview (baseline: "
               ++ toString baseline.display_count ++ ", current: "
               ++ toString current_config.display_count ++ ")"])
          else s3
        let baseline_ids := baseline.displays.map (fun d => d.id)
        current_config.displays.foldl
          (fun s display =>
            if !(baseline_ids.contains display.id) then
              (s.1 + 0.3, s.2 ++ ["New display connected during interview: " ++ display.name])
            else s)
          sa
      | none => s3
    let s5 := current_config.displays.foldl
      (fun s display =>
        let s := if display.connection_type == ConnectionType.USB then
            (s.1 + 0.2, s.2 ++ ["USB display detected: " ++ display.name]) else s
        if display.connection_type == ConnectionType.Wireless then
          (s.1 + 0.25, s.2 ++ ["Wireless display detected: " ++ display.name]) else s)
      s4
    let s6 := if remote_active then
        (s5.1 + 0.8, s5.2 ++ ["Remote desktop connection detected"]) else s5
    { risk_score := clamp01 s6.1, flags := s6.2, details := details }

/- ----------------------------------------------------------------
   src/vm_detector.rs
   ---------------------------------------------------------------- -/

/-- VmCheckResult from src/vm_detector.rs. -/
structure VmCheckResult where
  is_vm : Bool
  reasons : List String
  confidence_score : ℚ
deriving Repr

/-- Host facts consumed by VmDetector::detect (CPUID, sysinfo and network
probes are external): `hv_vendor` is `Some` of the Debug rendering of
`identify()` when `get_hypervisor_info()` returns a value; `networks` pairs
each interface name with its MAC-address string. -/
structure VmEnv where
  hypervisor_present : Bool
  hv_vendor : Option String
  sys_name : Option String
  host_name : Option String
  networks : List (String × String)

/-- VmDetector::is_suspicious_system_string from src/vm_detector.rs. -/
def is_suspicious_system_string (s : String) : Bool :=
  let patterns := ["virtualbox", "vmware", "qemu", "kvm",
    "oracle", "innotek", "xen", "bochs",
    "parallels", "bhyve",
    "virtual machine", "hvm dom"]
  patterns.any (fun p => strContains s p)

/-- VmDetector::check_mac_addresses from src/vm_detector.rs. -/
def check_mac_addresses (networks : List (String × String)) : List String :=
  let vm_ouis := [("00:05:69", "VMware"), ("00:0C:29", "VMware"), ("00:1C:14", "VMware"),
    ("00:50:56", "VMware"), ("08:00:27", "VirtualBox"), ("52:54:00", "QEMU/KVM"),
    ("00:16:3E", "Xen"), ("00:1C:42", "Parallels")]
  networks.foldl
    (fun detected iface =>
      let mac := upperStr iface.2
      vm_ouis.foldl
        (fun detected oui =>
          if strStartsWith mac oui.1 then
            detected ++ ["VM Network Adapter (" ++ oui.2 ++ ") detected on " ++ iface.1]
          else detected)
        detected)
    []

/-- VmDetector::detect from src/vm_detector.rs, threaded as a
(confidence, reasons) pair in the source's evaluation order. -/
def VmDetector.detect (env : VmEnv) : VmCheckResult :=
  let s0 : ℚ × List String := (0, [])
  let s1 :=
    if env.hypervisor_present then
      let sa := (s0.1 + 0.1, s0.2 ++ ["CPUID hypervisor bit set"])
      match env.hv_vendor with
      | some vendor_str =>
        if strContains vendor_str "HyperV" || strContains vendor_str "Microsoft" then
          (sa.1 + 0.2, sa.2 ++ ["Hypervisor Vendor: " ++ vendor_str ++ " (Ambiguous - could be WSL2/Host)"])
        else
          (sa.1 + 0.8, sa.2 ++ ["Hypervisor Vendor detected: " ++ vendor_str])
      | none => sa
    else s0
  let s2 := match env.sys_name with
    | some name =>
      if is_suspicious_system_string (lowerStr name) then
        (s1.1 + 0.6, s1.2 ++ ["Suspicious System Model: " ++ name])
      else s1
    | none => s1
  let s3 := match env.host_name with
    | some host_name =>
      if strContains (lowerStr host_name) "virtual" || strContains (lowerStr host_name) "qemu" then
        (s2.1 + 0.3, s2.2 ++ ["Suspicious Hostname: " ++ host_name])
      else s2
    | none => s2
  let mac_reasons := check_mac_addresses env.networks
  let s4 := if !mac_reasons.isEmpty then (s3.1 + 0.5, s3.2 ++ mac_reasons) else s3
  { is_vm := decide (0.7 < s4.1)
    reasons := s4.2
    confidence_score := min s4.1 1 }

/- ----------------------------------------------------------------
   src/main.rs : FairviewDetector
   ---------------------------------------------------------------- -/

/-- HardwareSuspicionReport from src/main.rs. -/
structure HardwareSuspicionReport where
  risk_score : ℚ
  display_count : Nat
  has_virtual_display : Bool
  has_hdmi_splitter : Bool
  remote_desktop_active : Bool
  flags : List String
  baseline_display_count : Option Nat
  display_changed : Bool
deriving Repr

/-- DetectionReport from src/main.rs; the `SystemTime` timestamp is an
abstract tick count supplied by the environment. -/
structure DetectionReport where
  timestamp : Nat
  scan_number : Nat
  suspicious_processes : List SuspiciousProcess
  hidden_overlays : List OverlayWindow
  audio_monitoring_detected : Bool
  hardware_suspicion : Option HardwareSuspicionReport
  vm_detection : Option VmCheckResult
  overall_risk_score : ℚ
  exceeds_threshold : Bool
  module_failures : List String
deriving Repr

/-- FairviewDetector state from src/main.rs (the stateless audio and overlay
detectors carry no fields). -/
structure FairviewDetector where
  process_monitor : ProcessMonitor
  hardware_detector : HardwareDetector
  config : Config
  scan_count : Nat
  baseline_collected : Bool

/-- FairviewDetector::new from src/main.rs. -/
def FairviewDetector.new (config : Config) : FairviewDetector :=
  { process_monitor := ProcessMonitor.new config
    hardware_detector := HardwareDetector.new
    config := config
    scan_count := 0
    baseline_collected := false }

/-- FairviewDetector::collect_baseline from src/main.rs: a no-op when
`monitoring.collect_baseline` is disabled; otherwise collects the process
baseline, attempts the hardware baseline (a probe failure only logs a
warning), and marks the baseline as collected. -/
def FairviewDetector.collect_baseline (st : FairviewDetector) (processes : List Process)
    (now : Nat) (hwCurrent : Except String DisplayConfiguration) : FairviewDetector :=
  if !st.config.monitoring.collect_baseline then st
  else
    let pm := st.process_monitor.collect_baseline processes now
    let hd := (st.hardware_detector.set_baseline hwCurrent).1
    { st with process_monitor := pm, hardware_detector := hd, baseline_collected := true }

/-- FairviewDetector::is_suspicious_name from src/main.rs. -/
def is_suspicious_name (name : String) : Bool :=
  let suspicious_patterns := ["cluely", "interview", "gpt", "chatgpt", "llm", "copilot",
    "aiassistant", "ai-assistant", "interview-bot", "interview-ai"]
  let name_lower := lowerStr name
  suspicious_patterns.any (fun pattern => strContains name_lower pattern)

/-- FairviewDetector::is_common_legit_app from src/main.rs. -/
def is_common_legit_app (name : String) : Bool :=
  let name_lower := lowerStr name
  let whitelist := ["explorer.exe", "chrome.exe", "firefox.exe", "msedge.exe",
    "msedgewebview2.exe", "brave.exe", "opera.exe",
    "discord.exe", "slack.exe", "teams.exe", "zoom.exe",
    "code.exe", "vscode.exe", "visual studio",
    "sharex.exe", "obs", "obs64.exe", "streamlabs",
    "steam.exe", "steamwebhelper.exe",
    "svchost.exe", "searchhost.exe", "applicationframehost.exe",
    "shellexperiencehost.exe", "systemsettings.exe",
    "camera hub.exe", "elgato"]
  whitelist.any (fun w => name_lower == w || strContains name_lower w)

/-- The `started_during` value the classifier computes for a pid
(src/main.rs line 329): a baseline must have been collected and the pid must
be absent from it. -/
def started_during_session (st : FairviewDetector) (pid : Nat) : Bool :=
  st.baseline_collected && !(st.process_monitor.was_in_baseline pid)

/-- Per-cycle inputs of the process module: the fresh process snapshot plus
the three capability probes (OS-specific, opaque per the spec). -/
structure ProcScanEnv where
  processes : List Process
  screen : Process → Bool
  audio : Process → Bool
  access : Process → Bool

/-- Body of the per-process loop of
FairviewDetector::scan_for_suspicious_processes (src/main.rs lines 323-390):
returns the SuspiciousProcess record pushed for this process, or `none` when
the loop emits nothing for it. -/
def classify_process (st : FairviewDetector) (pe : ProcScanEnv) (process : Process) :
    Option SuspiciousProcess :=
  let is_whitelisted := st.process_monitor.is_whitelisted process
  let started_during := started_during_session st process.pid
  let has_screen := pe.screen process
  let has_audio := pe.audio process
  let has_access := pe.access process
  let has_suspicious_name := is_suspicious_name process.name
  let is_common_legit := is_common_legit_app process.name
  let reasons : List String :=
    (if has_screen then ["Has screen capture permission"] else [])
    ++ (if has_audio then ["Has audio capture permission"] else [])
    ++ (if has_access then ["Has accessibility API access"] else [])
    ++ (if has_suspicious_name then ["Suspicious process name"] else [])
    ++ (if started_during && !is_whitelisted then ["Started during interview"] else [])
  let risk_score : ℚ :=
    (if has_screen then 0.3 else 0)
    + (if has_audio then 0.3 else 0)
    + (if has_access then 0.2 else 0)
    + (if has_suspicious_name then 0.4 else 0)
    + (if started_during && !is_whitelisted then 0.3 else 0)
  let capability_count := [has_screen, has_audio, has_access].count true
  if (is_whitelisted || is_common_legit) && !has_suspicious_name then none
  else
    let path_lower := lowerStr process.path
    let is_windows_core := strStartsWith path_lower "c:\\windows\\system32"
      || strStartsWith path_lower "c:\\windows\\syswow64"
    let should_flag := (has_suspicious_name && decide (1 ≤ capability_count) && !is_common_legit)
      || (!has_suspicious_name && decide (3 ≤ capability_count) && !is_common_legit && !is_windows_core)
      || (started_during && decide (2 ≤ capability_count))
    if should_flag && !reasons.isEmpty
        && decide (st.config.thresholds.process_threshold ≤ risk_score) then
      some { pid := process.pid, name := process.name, path := process.path,
             risk_score := min risk_score 1, reasons := reasons,
             started_during_interview := started_during, is_whitelisted := is_whitelisted }
    else none

/-- FairviewDetector::scan_for_suspicious_processes from src/main.rs. -/
def scan_for_suspicious_processes (st : FairviewDetector) (pe : ProcScanEnv) :
    List SuspiciousProcess :=
  pe.processes.filterMap (classify_process st pe)

/-- Maximum of a list of rationals, 0 for the empty list: Rust
`iter().max_by(partial_cmp).unwrap_or(0.0)`. -/
def listMaxD (l : List ℚ) : ℚ :=
  match l with
  | [] => 0
  | x :: xs => xs.foldl max x

/-- The `max_process_risk` computation inside
FairviewDetector::calculate_overall_risk (src/main.rs lines 432-436). -/
def max_process_risk (ps : List SuspiciousProcess) : ℚ :=
  listMaxD (ps.map (fun p => p.risk_score))

/-- FairviewDetector::calculate_overall_risk from src/main.rs. -/
def calculate_overall_risk (cfg : Config) (suspicious_processes : List SuspiciousProcess)
    (hidden_overlays : List OverlayWindow) (audio_monitoring : Bool)
    (hardware_suspicion : Option HardwareSuspicion) (vm_result : Option VmCheckResult) : ℚ :=
  let risk : ℚ := 0
  let risk := if !suspicious_processes.isEmpty then
      risk + max_process_risk suspicious_processes * cfg.weights.process_risk
    else risk
  let risk := if !hidden_overlays.isEmpty then risk + cfg.weights.overlay_risk else risk
  let risk := if audio_monitoring then risk + cfg.weights.audio_risk else risk
  let risk := match hardware_suspicion with
    | some hardware => risk + hardware.risk_score * cfg.weights.hardware_risk
    | none => risk
  let risk := match vm_result with
    | some vm => if vm.is_vm then risk + vm.confidence_score * cfg.weights.vm_risk else risk
    | none => risk
  min risk 1

/-- FairviewDetector::summarize_hardware from src/main.rs: display count
parsed back out of the detail map (default 1), plus the three flag
searches. -/
def summarize_hardware (hs : HardwareSuspicion) : Nat × Bool × Bool × Bool :=
  let display_count := (((hs.details.lookup "display_count").bind String.toNat?).getD 1)
  let has_virtual_display := hs.flags.any (fun f => strContains (lowerStr f) "virtual display")
  let has_hdmi_splitter := hs.flags.any (fun f => strContains (lowerStr f) "hdmi splitter")
  let remote_desktop_active := hs.flags.any (fun f => strContains (lowerStr f) "remote desktop")
  (display_count, has_virtual_display, has_hdmi_splitter, remote_desktop_active)

/-- Outcome of invoking one module under `std::panic::catch_unwind`: either
the module returned its inputs/result normally, or it terminated abnormally. -/
inductive ModRun (α : Type) where
  | ok : α → ModRun α
  | fault : ModRun α

/-- Per-cycle inputs of the hardware module: the display probe outcome and
the remote-desktop probe. -/
structure HwEnv where
  current : Except String DisplayConfiguration
  remote_desktop : Bool

/-- Everything the outside world feeds one call of FairviewDetector::scan:
per-module probe data (or an abnormal termination of that module) and the
cycle timestamp. -/
structure ScanEnv where
  vm : ModRun VmEnv
  procs : ModRun ProcScanEnv
  overlays : ModRun (List OverlayWindow)
  audio : ModRun Bool
  hardware : ModRun HwEnv
  now : Nat

/-- The orchestration pattern FairviewDetector::scan applies to each module
(src/main.rs lines 146-237): a disabled module contributes its default value
and no failure; an enabled module contributes its result, or the default
value plus one failure string when it terminates abnormally. -/
def runModule {α β : Type} (enabled : Bool) (r : ModRun α) (interp : α → β) (dflt : β)
    (failMsg : String) : β × List String :=
  if enabled then
    match r with
    | ModRun.ok a => (interp a, [])
    | ModRun.fault => (dflt, [failMsg])
  else (dflt, [])

/-- VM step of FairviewDetector::scan (src/main.rs lines 146-164). -/
def scanVm (st : FairviewDetector) (env : ScanEnv) : Option VmCheckResult × List String :=
  runModule st.config.monitoring.enable_vm_detection env.vm
    (fun ve => some (VmDetector.detect ve)) none "VM detection module failed"

/-- Process step of FairviewDetector::scan (src/main.rs lines 166-183). -/
def scanProcs (st : FairviewDetector) (env : ScanEnv) : List SuspiciousProcess × List String :=
  runModule st.config.monitoring.enable_process_monitoring env.procs
    (fun pe => scan_for_suspicious_processes st pe) [] "Process monitoring module failed"

/-- Overlay step of FairviewDetector::scan (src/main.rs lines 185-201). -/
def scanOverlays (st : FairviewDetector) (env : ScanEnv) : List OverlayWindow × List String :=
  runModule st.config.monitoring.enable_overlay_monitoring env.overlays
    (fun ov => ov) [] "Overlay detection module failed"

/-- Audio step of FairviewDetector::scan (src/main.rs lines 203-219). -/
def scanAudio (st : FairviewDetector) (env : ScanEnv) : Bool × List String :=
  runModule st.config.monitoring.enable_audio_monitoring env.audio
    (fun b => b) false "Audio detection module failed"

/-- Hardware step of FairviewDetector::scan (src/main.rs lines 221-237). -/
def scanHardware (st : FairviewDetector) (env : ScanEnv) :
    Option HardwareSuspicion × List String :=
  runModule st.config.monitoring.enable_hardware_monitoring env.hardware
    (fun he => some (st.hardware_detector.detect_hardware_cheating he.current he.remote_desktop))
    none "Hardware detection module failed"

/-- FairviewDetector::scan from src/main.rs: runs the five modules under
fault isolation (in source order: VM, processes, overlays, audio, hardware),
fuses the outcomes, compares against the risk threshold, summarizes the
hardware suspicion into its report form, and returns the updated detector
state together with the cycle's DetectionReport. -/
def FairviewDetector.scan (st : FairviewDetector) (env : ScanEnv) :
    FairviewDetector × DetectionReport :=
  let vmr := scanVm st env
  let pr := scanProcs st env
  let ovr := scanOverlays st env
  let aur := scanAudio st env
  let hwr := scanHardware st env
  let overall_risk := calculate_overall_risk st.config pr.1 ovr.1 aur.1 hwr.1 vmr.1
  let exceeds_threshold := decide (st.config.scan.risk_threshold ≤ overall_risk)
  let hardware_report := hwr.1.map (fun hs =>
    let s := summarize_hardware hs
    let baseline_count := st.hardware_detector.get_baseline.map (fun b => b.display_count)
    let display_changed := match baseline_count with
      | some baseline => baseline != s.1
      | none => false
    { risk_score := hs.risk_score
      display_count := s.1
      has_virtual_display := s.2.1
      has_hdmi_splitter := s.2.2.1
      remote_desktop_active := s.2.2.2
      flags := hs.flags
      baseline_display_count := baseline_count
      display_changed := display_changed : HardwareSuspicionReport })
  ({ st with scan_count := st.scan_count + 1 },
   { timestamp := env.now
     scan_number := st.scan_count + 1
     suspicious_processes := pr.1
     hidden_overlays := ovr.1
     audio_monitoring_detected := aur.1
     hardware_suspicion := hardware_report
     vm_detection := vmr.1
     overall_risk_score := overall_risk
     exceeds_threshold := exceeds_threshold
     module_failures := vmr.2 ++ pr.2 ++ ovr.2 ++ aur.2 ++ hwr.2 })

/- ----------------------------------------------------------------
   Concrete fixtures used by witnesses and counterexamples
   ---------------------------------------------------------------- -/

/-- A config whose weights sum to 1.2: fails validation. -/
def badWeightsCfg : Config :=
  { Config.default with weights := { Config.default.weights with process_risk := 0.5 } }

/-- Valid config with every monitoring module disabled and risk_threshold 0. -/
def cfgAllOffT0 : Config :=
  { Config.default with
    scan := { Config.default.scan with risk_threshold := 0 }
    monitoring := { Config.default.monitoring with
      enable_process_monitoring := false, enable_hardware_monitoring := false,
      enable_audio_monitoring := false, enable_overlay_monitoring := false,
      enable_vm_detection := false } }

/-- Valid config with every monitoring module disabled and the default
risk_threshold 0.5. -/
def cfgAllOff : Config :=
  { Config.default with monitoring := { Config.default.monitoring with
      enable_process_monitoring := false, enable_hardware_monitoring := false,
      enable_audio_monitoring := false, enable_overlay_monitoring := false,
      enable_vm_detection := false } }

/-- Default config with baseline collection disabled. -/
def cfgNoBaseline : Config :=
  { Config.default with monitoring := { Config.default.monitoring with collect_baseline := false } }

/-- Scan environment in which every module terminates abnormally. -/
def envAllFault : ScanEnv :=
  { vm := ModRun.fault, procs := ModRun.fault, overlays := ModRun.fault,
    audio := ModRun.fault, hardware := ModRun.fault, now := 0 }

/-- Processes observed at a first baseline capture. -/
def obsFirst : List Process := [{ pid := 1, name := "alpha.exe", path := "d:\\alpha.exe" }]

/-- Processes observed at a second baseline capture (pid 1 has exited). -/
def obsSecond : List Process := [{ pid := 2, name := "beta.exe", path := "d:\\beta.exe" }]

/-- One-display snapshot. -/
def dcOne : DisplayConfiguration :=
  { display_count := 1, displays := [], has_virtual_display := false,
    has_hdmi_splitter_signature := false }

/-- Two-display snapshot. -/
def dcTwo : DisplayConfiguration :=
  { display_count := 2, displays := [], has_virtual_display := false,
    has_hdmi_splitter_signature := false }

/-- Detector state after capturing a baseline twice. -/
def stRecaptured : FairviewDetector :=
  ((FairviewDetector.new Config.default).collect_baseline obsFirst 0
    (Except.ok dcOne)).collect_baseline obsSecond 1 (Except.ok dcTwo)

/- ----------------------------------------------------------------
   Spec-side restatements (named from the spec's wording, for comparison
   against the source-derived definitions)
   ---------------------------------------------------------------- -/

/-- Spec wording: `capability_count` is the number of true values among
{screen, audio, accessibility}. -/
def specCapabilityCount (pe : ProcScanEnv) (p : Process) : Nat :=
  [pe.screen p, pe.audio p, pe.access p].count true

/-- Spec wording: a core-OS-path process. -/
def specWindowsCore (p : Process) : Bool :=
  strStartsWith (lowerStr p.path) "c:\\windows\\system32"
  || strStartsWith (lowerStr p.path) "c:\\windows\\syswow64"

/-- Spec wording: the flagging condition, any one branch true — suspicious
name with capability_count ≥ 1 and not common-legit; or no suspicious name,
capability_count ≥ 3, not common-legit and not a core-OS-path process; or
started-during-session with capability_count ≥ 2. -/
def specShouldFlag (st : FairviewDetector) (pe : ProcScanEnv) (p : Process) : Bool :=
  (is_suspicious_name p.name && decide (1 ≤ specCapabilityCount pe p)
    && !is_common_legit_app p.name)
  || (!is_suspicious_name p.name && decide (3 ≤ specCapabilityCount pe p)
    && !is_common_legit_app p.name && !specWindowsCore p)
  || (started_during_session st p.pid && decide (2 ≤ specCapabilityCount pe p))

/-- Spec wording: the recorded reasons, one per true signal, in evaluation
order. -/
def specReasons (st : FairviewDetector) (pe : ProcScanEnv) (p : Process) : List String :=
  (if pe.screen p then ["Has screen capture permission"] else [])
  ++ (if pe.audio p then ["Has audio capture permission"] else [])
  ++ (if pe.access p then ["Has accessibility API access"] else [])
  ++ (if is_suspicious_name p.name then ["Suspicious process name"] else [])
  ++ (if started_during_session st p.pid && !(st.process_monitor.is_whitelisted p) then
        ["Started during interview"] else [])

/-- Spec wording: `risk_score` is the additive sum of the fixed weights —
screen 0.3, audio 0.3, accessibility 0.2, suspicious-name 0.4,
started-during-session-and-not-whitelisted 0.3. -/
def specRiskScore (st : FairviewDetector) (pe : ProcScanEnv) (p : Process) : ℚ :=
  (if pe.screen p then (0.3 : ℚ) else 0)
  + (if pe.audio p then (0.3 : ℚ) else 0)
  + (if pe.access p then (0.2 : ℚ) else 0)
  + (if is_suspicious_name p.name then (0.4 : ℚ) else 0)
  + (if started_during_session st p.pid && !(st.process_monitor.is_whitelisted p) then
      (0.3 : ℚ) else 0)

/-- Spec wording: the allow-list short-circuit — whitelisted or common-legit
and not suspiciously named. -/
def specExempted (st : FairviewDetector) (p : Process) : Bool :=
  (st.process_monitor.is_whitelisted p || is_common_legit_app p.name)
  && !is_suspicious_name p.name

/-- Spec wording for the fusion sum S: max flagged risk times process
weight when the flagged list is non-empty, flat overlay and audio weights,
hardware risk and VM confidence scaled by their weights (the latter only
when is_vm). -/
def specFusionSum (cfg : Config) (ps : List SuspiciousProcess) (ov : List OverlayWindow)
    (au : Bool) (hw : Option HardwareSuspicion) (vm : Option VmCheckResult) : ℚ :=
  (if ps.isEmpty then 0 else max_process_risk ps * cfg.weights.process_risk)
  + (if ov.isEmpty then 0 else cfg.weights.overlay_risk)
  + (if au then cfg.weights.audio_risk else 0)
  + (match hw with
     | some h => h.risk_score * cfg.weights.hardware_risk
     | none => 0)
  + (match vm with
     | some v => if v.is_vm then v.confidence_score * cfg.weights.vm_risk else 0
     | none => 0)

/-- Flagged process of the spec's fusion scenario (risk 0.8). -/
def scenarioProc : SuspiciousProcess :=
  { pid := 1, name := "assistant.exe", path := "d:\\a.exe", risk_score := 0.8,
    reasons := [], started_during_interview := false, is_whitelisted := false }

/-- Hardware result of the spec's fusion scenario (risk 0.4). -/
def scenarioHw : HardwareSuspicion :=
  { risk_score := 0.4, flags := [], details := [] }

/-- VM result of the spec's fusion scenario (is_vm, confidence 0.9). -/
def scenarioVm : VmCheckResult :=
  { is_vm := true, reasons := [], confidence_score := 0.9 }

/-- Capability environment in which every probe answers true. -/
def allCapsEnv : ProcScanEnv :=
  { processes := [], screen := fun _ => true, audio := fun _ => true, access := fun _ => true }

/-- The chrome.exe observation of the spec's allow-list scenario. -/
def chromeProc : Process :=
  { pid := 10, name := "chrome.exe", path := "c:\\program files\\chrome\\chrome.exe" }

/-- A suspiciously named process outside every allow-list. -/
def cluelyProc : Process :=
  { pid := 7, name := "cluely.exe", path := "d:\\tools\\cluely.exe" }

/-- Benign VM-probe facts: no hypervisor, nothing suspicious. -/
def vmEnvBenign : VmEnv :=
  { hypervisor_present := false, hv_vendor := none, sys_name := none,
    host_name := none, networks := [] }

/-- Process-module inputs with no processes and all-false capability probes. -/
def procEnvEmpty : ProcScanEnv :=
  { processes := [], screen := fun _ => false, audio := fun _ => false, access := fun _ => false }

/-- Scan environment in which the four non-hardware modules run normally and
the hardware module terminates abnormally. -/
def envHwFault : ScanEnv :=
  { vm := ModRun.ok vmEnvBenign, procs := ModRun.ok procEnvEmpty,
    overlays := ModRun.ok [], audio := ModRun.ok false,
    hardware := ModRun.fault, now := 0 }

/-- Scan environment in which every module runs normally (the hardware
display probe reports an error result, which is a normal return). -/
def envBenign : ScanEnv :=
  { vm := ModRun.ok vmEnvBenign, procs := ModRun.ok procEnvEmpty,
    overlays := ModRun.ok [], audio := ModRun.ok false,
    hardware := ModRun.ok { current := Except.error "probe", remote_desktop := false }, now := 0 }

/- ----------------------------------------------------------------
   Helper lemmas
   ---------------------------------------------------------------- -/

theorem foldl_max_mem (xs : List ℚ) (x : ℚ) : xs.foldl max x ∈ x :: xs := by
  induction xs generalizing x with
  | nil => simp
  | cons y ys ih =>
    have h := ih (max x y)
    simp only [List.foldl_cons]
    rcases List.mem_cons.mp h with h1 | h1
    · rcases max_choice x y with hc | hc
      · rw [h1, hc]; exact List.mem_cons_self _ _
      · rw [h1, hc]; exact List.mem_cons_of_mem _ (List.mem_cons_self _ _)
    · exact List.mem_cons_of_mem _ (List.mem_cons_of_mem _ h1)

theorem le_foldl_max (xs : List ℚ) (x : ℚ) : x ≤ xs.foldl max x := by
  induction xs generalizing x with
  | nil => simp
  | cons y ys ih =>
    simp only [List.foldl_cons]
    exact le_trans (le_max_left x y) (ih (max x y))

theorem mem_le_foldl_max (xs : List ℚ) (x z : ℚ) (hz : z ∈ x :: xs) :
    z ≤ xs.foldl max x := by
  induction xs generalizing x with
  | nil =>
    simp only [List.mem_singleton] at hz
    simp [hz]
  | cons y ys ih =>
    simp only [List.foldl_cons]
    rcases List.mem_cons.mp hz with rfl | hz'
    · exact le_trans (le_max_left z y) (le_foldl_max ys (max z y))
    · rcases List.mem_cons.mp hz' with rfl | hz''
      · exact le_trans (le_max_right x z) (le_foldl_max ys (max x z))
      · exact ih (max x y) (List.mem_cons_of_mem _ hz'')

theorem listMaxD_mem (l : List ℚ) (h : l ≠ []) : listMaxD l ∈ l := by
  cases l with
  | nil => exact absurd rfl h
  | cons x xs =>
    simp only [listMaxD]
    exact foldl_max_mem xs x

theorem le_listMaxD (l : List ℚ) (z : ℚ) (hz : z ∈ l) : z ≤ listMaxD l := by
  cases l with
  | nil => simp at hz
  | cons x xs =>
    simp only [listMaxD]
    exact mem_le_foldl_max xs x z hz

theorem isEmpty_false_iff {α : Type} (l : List α) : l.isEmpty = false ↔ l ≠ [] := by
  cases l <;> simp

theorem option_ite_some {c : Prop} [Decidable c] (r : SuspiciousProcess) :
    (∃ q, (if c then some r else none) = some q) ↔ c := by
  by_cases h : c <;> simp [h]

theorem foldl_insert_any (l : List Process) (m : List (Nat × ProcessBaseline)) (now pid : Nat) :
    (l.foldl
        (fun m p => insertBaseline m p.pid { name := p.name, path := p.path, start_time := now })
        m).any (fun e => e.1 == pid)
    = (l.any (fun p => p.pid == pid) || m.any (fun e => e.1 == pid)) := by
  induction l generalizing m with
  | nil => simp
  | cons p l ih =>
    simp only [List.foldl, List.any_cons]
    rw [ih]
    simp [insertBaseline, List.any_cons, Bool.or_assoc, Bool.or_comm, Bool.or_left_comm]

theorem ite_nonneg {c : Prop} [Decidable c] {x : ℚ} (hx : 0 ≤ x) :
    0 ≤ (if c then x else 0) := by
  split
  · exact hx
  · exact le_refl 0

theorem step_nonneg {c : Prop} [Decidable c] {r x : ℚ} (hr : 0 ≤ r) (hx : 0 ≤ x) :
    0 ≤ (if c then r + x else r) := by
  split
  · exact add_nonneg hr hx
  · exact hr

theorem clamp01_bounds (x : ℚ) : 0 ≤ clamp01 x ∧ clamp01 x ≤ 1 :=
  ⟨le_min (le_max_right x 0) (by norm_num), min_le_right _ _⟩

theorem runModule_fst {α β : Type} (en : Bool) (r : ModRun α) (interp : α → β) (dflt : β)
    (msg : String) (P : β → Prop) (hd : P dflt) (hi : ∀ a, P (interp a)) :
    P (runModule en r interp dflt msg).1 := by
  unfold runModule
  cases en
  · simpa using hd
  · cases r
    · simpa using hi _
    · simpa using hd

theorem hw_detect_bounds (hd : HardwareDetector) (cur : Except String DisplayConfiguration)
    (rd : Bool) :
    0 ≤ (hd.detect_hardware_cheating cur rd).risk_score
    ∧ (hd.detect_hardware_cheating cur rd).risk_score ≤ 1 := by
  unfold HardwareDetector.detect_hardware_cheating
  rcases cur with e | c
  · constructor <;> norm_num
  · exact clamp01_bounds _

theorem vm_detect_bounds (e : VmEnv) :
    0 ≤ (VmDetector.detect e).confidence_score
    ∧ (VmDetector.detect e).confidence_score ≤ 1 := by
  unfold VmDetector.detect
  refine ⟨le_min ?_ (by norm_num), min_le_right _ _⟩
  repeat' split
  all_goals norm_num

theorem classify_bounds (st : FairviewDetector) (pe : ProcScanEnv) (p : Process)
    (q : SuspiciousProcess) (h : classify_process st pe p = some q) :
    0 ≤ q.risk_score ∧ q.risk_score ≤ 1 := by
  simp only [classify_process] at h
  split at h
  · exact absurd h (by simp)
  · rw [Option.ite_none_right_eq_some, Option.some.injEq] at h
    obtain ⟨hc, h'⟩ := h
    rw [← h']
    refine ⟨le_min ?_ (by norm_num), min_le_right _ _⟩
    repeat' split
    all_goals norm_num

theorem scan_procs_bounds (st : FairviewDetector) (pe : ProcScanEnv) :
    ∀ q ∈ scan_for_suspicious_processes st pe, 0 ≤ q.risk_score ∧ q.risk_score ≤ 1 := by
  intro q hq
  unfold scan_for_suspicious_processes at hq
  obtain ⟨p, hp, hcl⟩ := List.mem_filterMap.mp hq
  exact classify_bounds st pe p q hcl

theorem calc_risk_bounds (cfg : Config) (ps : List SuspiciousProcess)
    (ov : List OverlayWindow) (au : Bool) (hw : Option HardwareSuspicion)
    (vm : Option VmCheckResult)
    (hw1 : 0 ≤ cfg.weights.process_risk) (hw2 : 0 ≤ cfg.weights.overlay_risk)
    (hw3 : 0 ≤ cfg.weights.audio_risk) (hw4 : 0 ≤ cfg.weights.hardware_risk)
    (hw5 : 0 ≤ cfg.weights.vm_risk)
    (hps : ∀ p ∈ ps, 0 ≤ p.risk_score)
    (hhw : ∀ h, hw = some h → 0 ≤ h.risk_score)
    (hvm : ∀ v, vm = some v → 0 ≤ v.confidence_score) :
    0 ≤ calculate_overall_risk cfg ps ov au hw vm
    ∧ calculate_overall_risk cfg ps ov au hw vm ≤ 1 := by
  have hmax : 0 ≤ max_process_risk ps := by
    unfold max_process_risk
    cases hl : ps.map (fun p => p.risk_score) with
    | nil => simp [listMaxD]
    | cons x xs =>
      have hmem : listMaxD (x :: xs) ∈ x :: xs := listMaxD_mem _ (by simp)
      rw [← hl] at hmem
      obtain ⟨p, hp, hpe⟩ := List.mem_map.mp hmem
      rw [← hl, ← hpe]
      exact hps p hp
  unfold calculate_overall_risk
  refine ⟨le_min ?_ (by norm_num), min_le_right _ _⟩
  rcases hw with _ | h <;> rcases vm with _ | v
  · exact step_nonneg (step_nonneg (step_nonneg (le_refl 0)
      (mul_nonneg hmax hw1)) hw2) hw3
  · exact step_nonneg (step_nonneg (step_nonneg (step_nonneg (le_refl 0)
      (mul_nonneg hmax hw1)) hw2) hw3) (mul_nonneg (hvm v rfl) hw5)
  · exact add_nonneg (step_nonneg (step_nonneg (step_nonneg (le_refl 0)
      (mul_nonneg hmax hw1)) hw2) hw3) (mul_nonneg (hhw h rfl) hw4)
  · exact step_nonneg (add_nonneg (step_nonneg (step_nonneg (step_nonneg (le_refl 0)
      (mul_nonneg hmax hw1)) hw2) hw3) (mul_nonneg (hhw h rfl) hw4))
      (mul_nonneg (hvm v rfl) hw5)

/- ----------------------------------------------------------------
   Claims C7, C8, C9, C10
   ---------------------------------------------------------------- -/

/-- C7 counterexample: a config whose weights sum to 1.2 is rejected by
Config::from_file, yet main() does not abort — it falls back to the default
configuration and proceeds to the monitoring loop, so an invalid
configuration does not prevent the system from starting. -/
theorem C7_counterexample :
    (Config.from_file (Except.ok badWeightsCfg)).toOption = none
    ∧ mainStartup (Except.ok badWeightsCfg) = Config.default := by
  have hbad : badWeightsCfg.validate =
      Except.error ("Weights must sum to 1.0, got "
        ++ fmt2 (badWeightsCfg.weights.process_risk + badWeightsCfg.weights.overlay_risk
          + badWeightsCfg.weights.audio_risk + badWeightsCfg.weights.hardware_risk
          + badWeightsCfg.weights.vm_risk)) := by
    rw [Config.validate]
    rw [if_pos]
    show (0.01 : ℚ) < _
    have hsum : badWeightsCfg.weights.process_risk + badWeightsCfg.weights.overlay_risk
        + badWeightsCfg.weights.audio_risk + badWeightsCfg.weights.hardware_risk
        + badWeightsCfg.weights.vm_risk - 1 = 0.2 := by
      norm_num [badWeightsCfg, Config.default]
    rw [hsum, abs_of_nonneg] <;> norm_num
  have hstep : Config.from_file (Except.ok badWeightsCfg)
      = match badWeightsCfg.validate with
        | Except.error e => Except.error e
        | Except.ok _ => Except.ok badWeightsCfg := rfl
  rw [hbad] at hstep
  have hff : Config.from_file (Except.ok badWeightsCfg)
      = Except.error ("Weights must sum to 1.0, got "
        ++ fmt2 (badWeightsCfg.weights.process_risk + badWeightsCfg.weights.overlay_risk
          + badWeightsCfg.weights.audio_risk + badWeightsCfg.weights.hardware_risk
          + badWeightsCfg.weights.vm_risk)) := hstep
  constructor
  · simp [hff, Except.toOption]
  · rw [mainStartup, hff]

/-- C7 (amended): an invalid configuration is rejected at load and never
reaches a scan cycle — whatever the outcome of loading, the configuration
the system runs under passes validation (an invalid file is replaced by the
built-in default rather than aborting startup). -/
theorem C7_invalid_config_never_scanned :
    ∀ parsed : Except String Config, Config.validate (mainStartup parsed) = Except.ok () := by
  have hdef : Config.validate Config.default = Except.ok () := by
    norm_num [Config.validate, Config.default]
  intro parsed
  unfold mainStartup Config.from_file
  cases parsed with
  | error e => exact hdef
  | ok c =>
    cases hv : c.validate with
    | error e => simp only [hv]; exact hdef
    | ok u => simp only [hv]

/-- C8 counterexample: pid 1 is observed only at the first baseline capture
and is absent from the second, yet after re-capturing it is still reported
as part of the baseline — the process-id baseline is not replaced wholesale
by the second capture. -/
theorem C8_counterexample :
    obsSecond.all (fun p => p.pid != 1) = true
    ∧ stRecaptured.process_monitor.was_in_baseline 1 = true :=
  ⟨rfl, rfl⟩

/-- C8 (amended): a second baseline capture proceeds without error; the
display-configuration baseline is replaced wholesale by the newly observed
snapshot, but the process-id baseline is merged — after a capture a pid is
in the baseline iff it was just observed or was already in the baseline, so
process entries from an earlier capture survive a re-capture. -/
theorem C8_recapture_semantics :
    (∀ (hd : HardwareDetector) (c : DisplayConfiguration),
        (hd.set_baseline (Except.ok c)).1.baseline_displays = some c)
    ∧ (∀ (pm : ProcessMonitor) (processes : List Process) (now pid : Nat),
        (pm.collect_baseline processes now).was_in_baseline pid
          = (processes.any (fun p => p.pid == pid) || pm.was_in_baseline pid)) := by
  constructor
  · intro hd c; rfl
  · intro pm processes now pid
    unfold ProcessMonitor.collect_baseline ProcessMonitor.was_in_baseline
    exact foldl_insert_any processes pm.baseline_processes now pid

/-- C9: before any baseline capture — in the fresh detector state, and
likewise when baseline collection is disabled in the config (so
collect_baseline is a no-op) — `was_in_baseline` is false for every pid and
the classifier's `started_during` value is false for every pid. -/
theorem C9_baseline_absent :
    (∀ (cfg : Config) (pid : Nat),
        (FairviewDetector.new cfg).process_monitor.was_in_baseline pid = false
        ∧ started_during_session (FairviewDetector.new cfg) pid = false)
    ∧ (∀ (cfg : Config) (processes : List Process) (now : Nat)
          (hwCurrent : Except String DisplayConfiguration) (pid : Nat),
        cfg.monitoring.collect_baseline = false →
          ((FairviewDetector.new cfg).collect_baseline processes now hwCurrent).process_monitor.was_in_baseline pid = false
          ∧ started_during_session
              ((FairviewDetector.new cfg).collect_baseline processes now hwCurrent) pid = false) := by
  constructor
  · intro cfg pid; exact ⟨rfl, rfl⟩
  · intro cfg processes now hwCurrent pid h
    simp only [FairviewDetector.collect_baseline, FairviewDetector.new, h]
    exact ⟨rfl, rfl⟩

/-- C9 witness: with baseline collection disabled, a capture attempt changes
nothing and pid 42 — though genuinely observed — is reported as not started
during the session. -/
theorem C9_baseline_absent_witness :
    cfgNoBaseline.monitoring.collect_baseline = false
    ∧ (((FairviewDetector.new cfgNoBaseline).collect_baseline
          [{ pid := 42, name := "n.exe", path := "d:\\n.exe" }] 0
          (Except.error "probe")).process_monitor.was_in_baseline 42 = false
      ∧ started_during_session
          ((FairviewDetector.new cfgNoBaseline).collect_baseline
            [{ pid := 42, name := "n.exe", path := "d:\\n.exe" }] 0
            (Except.error "probe")) 42 = false) :=
  ⟨rfl, C9_baseline_absent.2 cfgNoBaseline
    [{ pid := 42, name := "n.exe", path := "d:\\n.exe" }] 0 (Except.error "probe") 42 rfl⟩

/-- C10: Config::validate never examines the four module-local thresholds —
two configs differing only in their thresholds table validate identically —
and in particular a config whose module thresholds lie outside [0,1] passes
validation when the weights and risk_threshold constraints hold. -/
theorem C10_validate_ignores_module_thresholds :
    (∀ (c : Config) (t t' : ThresholdsConfig),
        Config.validate { c with thresholds := t } = Config.validate { c with thresholds := t' })
    ∧ Config.validate { Config.default with
        thresholds := { process_threshold := -1, hardware_threshold := 2,
                        audio_threshold := -0.5, overlay_threshold := 1.5 } } = Except.ok () := by
  constructor
  · intro c t t'; rfl
  · norm_num [Config.validate, Config.default]

/-- C3: a process that is whitelisted or on the common-legit list, and whose
name is not suspicious, is never emitted by the process classifier — whatever
the capability probes answer and whatever the baseline state says. -/
theorem C3_allowlist_override (st : FairviewDetector) (pe : ProcScanEnv) (p : Process)
    (hwl : st.process_monitor.is_whitelisted p = true ∨ is_common_legit_app p.name = true)
    (hname : is_suspicious_name p.name = false) :
    classify_process st pe p = none := by
  unfold classify_process
  rcases hwl with h | h <;> simp [h, hname]

/-- C3 witness: chrome.exe with all three capability probes answering true is
on the common-legit list, not suspiciously named, and never emitted. -/
theorem C3_allowlist_override_witness :
    is_common_legit_app "chrome.exe" = true
    ∧ is_suspicious_name "chrome.exe" = false
    ∧ classify_process (FairviewDetector.new Config.default) allCapsEnv chromeProc = none :=
  ⟨by decide, by decide,
    C3_allowlist_override (FairviewDetector.new Config.default) allCapsEnv chromeProc
      (Or.inr (by decide)) (by decide)⟩

/-- C4: for a process not exempted by the allow-list short-circuit, a
SuspiciousProcess is emitted iff the spec's flagging disjunction holds, the
spec's reason list is non-empty, and the spec's additive risk score reaches
thresholds.process_threshold. -/
theorem C4_emission_rule (st : FairviewDetector) (pe : ProcScanEnv) (p : Process)
    (hex : specExempted st p = false) :
    (∃ q, classify_process st pe p = some q) ↔
      (specShouldFlag st pe p = true
        ∧ specReasons st pe p ≠ []
        ∧ st.config.thresholds.process_threshold ≤ specRiskScore st pe p) := by
  unfold specExempted at hex
  unfold specShouldFlag specCapabilityCount specWindowsCore specReasons specRiskScore
  unfold classify_process
  simp only [hex, Bool.false_eq_true, if_false]
  rw [option_ite_some]
  simp only [Bool.and_eq_true, Bool.not_eq_true', decide_eq_true_eq, isEmpty_false_iff]
  tauto

/-- C4 witness: cluely.exe with all three capability probes true, under the
default config, is not exempted and satisfies the emission equivalence. -/
theorem C4_emission_rule_witness :
    specExempted (FairviewDetector.new Config.default) cluelyProc = false
    ∧ ((∃ q, classify_process (FairviewDetector.new Config.default) allCapsEnv cluelyProc = some q) ↔
      (specShouldFlag (FairviewDetector.new Config.default) allCapsEnv cluelyProc = true
        ∧ specReasons (FairviewDetector.new Config.default) allCapsEnv cluelyProc ≠ []
        ∧ (FairviewDetector.new Config.default).config.thresholds.process_threshold
            ≤ specRiskScore (FairviewDetector.new Config.default) allCapsEnv cluelyProc)) :=
  ⟨by decide,
    C4_emission_rule (FairviewDetector.new Config.default) allCapsEnv cluelyProc (by decide)⟩

/-- C1: the fused score equals min(1, S) with S the spec's weighted sum; the
per-cycle verdict equals the comparison of the fused score against
config.scan.risk_threshold; `max_process_risk` is the maximum of the flagged
risk scores; and on the spec's scenario (weights 0.3/0.2/0.1/0.15/0.25, one
flagged process at 0.8, hardware 0.4, VM detected with confidence 0.9) the
score is 0.525, which reaches the 0.5 threshold. -/
theorem C1_risk_fusion :
    (∀ (cfg : Config) (ps : List SuspiciousProcess) (ov : List OverlayWindow) (au : Bool)
        (hw : Option HardwareSuspicion) (vm : Option VmCheckResult),
      calculate_overall_risk cfg ps ov au hw vm = min 1 (specFusionSum cfg ps ov au hw vm))
    ∧ (∀ ps : List SuspiciousProcess, ps ≠ [] →
        max_process_risk ps ∈ ps.map (fun p => p.risk_score)
        ∧ ∀ p ∈ ps, p.risk_score ≤ max_process_risk ps)
    ∧ (∀ (st : FairviewDetector) (env : ScanEnv),
        ((FairviewDetector.scan st env).2).exceeds_threshold
          = decide (st.config.scan.risk_threshold
              ≤ ((FairviewDetector.scan st env).2).overall_risk_score))
    ∧ (calculate_overall_risk Config.default [scenarioProc] [] false
          (some scenarioHw) (some scenarioVm) = 0.525
        ∧ Config.default.scan.risk_threshold ≤ 0.525) := by
  refine ⟨?_, ?_, ?_, ?_, ?_⟩
  · intro cfg ps ov au hw vm
    unfold calculate_overall_risk specFusionSum
    rw [min_comm]
    congr 1
    cases hps : ps.isEmpty <;> cases hov : ov.isEmpty <;> cases au <;>
      rcases hw with _ | h <;> rcases vm with _ | v
    all_goals (try cases hvm : v.is_vm)
    all_goals simp [hps, hov, *]
  · intro ps hne
    constructor
    · unfold max_process_risk
      exact listMaxD_mem _ (by simpa using hne)
    · intro p hp
      unfold max_process_risk
      exact le_listMaxD _ _ (List.mem_map_of_mem _ hp)
  · intro st env
    rfl
  · norm_num [calculate_overall_risk, max_process_risk, listMaxD, scenarioProc,
      scenarioHw, scenarioVm, Config.default, min_def]
  · norm_num [Config.default]

/-- C1 witness: the scenario's singleton flagged list is non-empty and its
maximum risk score is attained and bounds every member. -/
theorem C1_risk_fusion_witness :
    ([scenarioProc] : List SuspiciousProcess) ≠ []
    ∧ (max_process_risk [scenarioProc] ∈ [scenarioProc].map (fun p => p.risk_score)
      ∧ ∀ p ∈ [scenarioProc], p.risk_score ≤ max_process_risk [scenarioProc]) :=
  ⟨by simp, C1_risk_fusion.2.1 [scenarioProc] (by simp)⟩

/-- C5: when the four non-hardware modules are enabled and return normally
while the enabled hardware module terminates abnormally, the scan cycle still
completes with the process, overlay, audio and VM results unchanged,
hardware_suspicion absent, and exactly one module-failure entry — the
hardware module's. -/
theorem C5_hardware_fault_isolated (st : FairviewDetector) (env : ScanEnv)
    (ve : VmEnv) (pe : ProcScanEnv) (ov : List OverlayWindow) (au : Bool)
    (e1 : st.config.monitoring.enable_vm_detection = true)
    (e2 : st.config.monitoring.enable_process_monitoring = true)
    (e3 : st.config.monitoring.enable_overlay_monitoring = true)
    (e4 : st.config.monitoring.enable_audio_monitoring = true)
    (e5 : st.config.monitoring.enable_hardware_monitoring = true)
    (hv : env.vm = ModRun.ok ve)
    (hp : env.procs = ModRun.ok pe)
    (ho : env.overlays = ModRun.ok ov)
    (ha : env.audio = ModRun.ok au)
    (hh : env.hardware = ModRun.fault) :
    ((FairviewDetector.scan st env).2).module_failures = ["Hardware detection module failed"]
    ∧ ((FairviewDetector.scan st env).2).vm_detection = some (VmDetector.detect ve)
    ∧ ((FairviewDetector.scan st env).2).suspicious_processes
        = scan_for_suspicious_processes st pe
    ∧ ((FairviewDetector.scan st env).2).hidden_overlays = ov
    ∧ ((FairviewDetector.scan st env).2).audio_monitoring_detected = au
    ∧ ((FairviewDetector.scan st env).2).hardware_suspicion = none := by
  simp [FairviewDetector.scan, scanVm, scanProcs, scanOverlays, scanAudio, scanHardware,
    runModule, e1, e2, e3, e4, e5, hv, hp, ho, ha, hh]

/-- C5 witness: under the default config, with benign VM/process/overlay/audio
inputs and a hardware fault, the cycle isolates exactly the hardware
failure. -/
theorem C5_hardware_fault_isolated_witness :
    (FairviewDetector.new Config.default).config.monitoring.enable_hardware_monitoring = true
    ∧ envHwFault.hardware = ModRun.fault
    ∧ (((FairviewDetector.new Config.default).scan envHwFault).2.module_failures
          = ["Hardware detection module failed"]
      ∧ ((FairviewDetector.new Config.default).scan envHwFault).2.vm_detection
          = some (VmDetector.detect vmEnvBenign)
      ∧ ((FairviewDetector.new Config.default).scan envHwFault).2.suspicious_processes
          = scan_for_suspicious_processes (FairviewDetector.new Config.default) procEnvEmpty
      ∧ ((FairviewDetector.new Config.default).scan envHwFault).2.hidden_overlays = []
      ∧ ((FairviewDetector.new Config.default).scan envHwFault).2.audio_monitoring_detected = false
      ∧ ((FairviewDetector.new Config.default).scan envHwFault).2.hardware_suspicion = none) :=
  ⟨rfl, rfl,
    C5_hardware_fault_isolated (FairviewDetector.new Config.default) envHwFault
      vmEnvBenign procEnvEmpty [] false rfl rfl rfl rfl rfl rfl rfl rfl rfl rfl⟩

/-- C6 counterexample: with every monitoring module disabled and the (valid)
risk_threshold 0, the report's overall score is 0 yet exceeds_threshold is
true — the claim's `exceeds_threshold = false` fails on this valid config. -/
theorem C6_counterexample :
    Config.validate cfgAllOffT0 = Except.ok ()
    ∧ ((FairviewDetector.new cfgAllOffT0).scan envAllFault).2.overall_risk_score = 0
    ∧ ((FairviewDetector.new cfgAllOffT0).scan envAllFault).2.exceeds_threshold = true := by
  refine ⟨?_, ?_, ?_⟩
  · norm_num [Config.validate, cfgAllOffT0, Config.default]
  · norm_num [FairviewDetector.scan, scanVm, scanProcs, scanOverlays, scanAudio,
      scanHardware, runModule, FairviewDetector.new, cfgAllOffT0, Config.default,
      calculate_overall_risk, min_def, envAllFault]
  · norm_num [FairviewDetector.scan, scanVm, scanProcs, scanOverlays, scanAudio,
      scanHardware, runModule, FairviewDetector.new, cfgAllOffT0, Config.default,
      calculate_overall_risk, min_def, envAllFault]

/-- C6 (amended): with all five monitoring modules disabled, every scan cycle
reports empty process and overlay lists, no audio detection, no hardware or
VM result, overall_risk_score 0 and no module failures; exceeds_threshold
equals the comparison risk_threshold ≤ 0, which is false exactly when the
configured risk_threshold is positive (and true for a threshold of 0). -/
theorem C6_all_disabled_report (st : FairviewDetector) (env : ScanEnv)
    (h1 : st.config.monitoring.enable_process_monitoring = false)
    (h2 : st.config.monitoring.enable_overlay_monitoring = false)
    (h3 : st.config.monitoring.enable_audio_monitoring = false)
    (h4 : st.config.monitoring.enable_hardware_monitoring = false)
    (h5 : st.config.monitoring.enable_vm_detection = false) :
    ((FairviewDetector.scan st env).2).suspicious_processes = []
    ∧ ((FairviewDetector.scan st env).2).hidden_overlays = []
    ∧ ((FairviewDetector.scan st env).2).audio_monitoring_detected = false
    ∧ ((FairviewDetector.scan st env).2).hardware_suspicion = none
    ∧ ((FairviewDetector.scan st env).2).vm_detection = none
    ∧ ((FairviewDetector.scan st env).2).overall_risk_score = 0
    ∧ ((FairviewDetector.scan st env).2).module_failures = []
    ∧ ((FairviewDetector.scan st env).2).exceeds_threshold
        = decide (st.config.scan.risk_threshold ≤ 0) := by
  have hcalc : calculate_overall_risk st.config [] [] false none none = 0 := by
    norm_num [calculate_overall_risk, min_def]
  simp [FairviewDetector.scan, scanVm, scanProcs, scanOverlays, scanAudio, scanHardware,
    runModule, h1, h2, h3, h4, h5, hcalc]

/-- C6 witness: the all-disabled config with the default risk_threshold 0.5
satisfies the amended report description (and there exceeds_threshold is
false, since 0.5 > 0). -/
theorem C6_all_disabled_report_witness :
    cfgAllOff.monitoring.enable_process_monitoring = false
    ∧ (((FairviewDetector.new cfgAllOff).scan envAllFault).2.suspicious_processes = []
      ∧ ((FairviewDetector.new cfgAllOff).scan envAllFault).2.hidden_overlays = []
      ∧ ((FairviewDetector.new cfgAllOff).scan envAllFault).2.audio_monitoring_detected = false
      ∧ ((FairviewDetector.new cfgAllOff).scan envAllFault).2.hardware_suspicion = none
      ∧ ((FairviewDetector.new cfgAllOff).scan envAllFault).2.vm_detection = none
      ∧ ((FairviewDetector.new cfgAllOff).scan envAllFault).2.overall_risk_score = 0
      ∧ ((FairviewDetector.new cfgAllOff).scan envAllFault).2.module_failures = []
      ∧ ((FairviewDetector.new cfgAllOff).scan envAllFault).2.exceeds_threshold
          = decide (cfgAllOff.scan.risk_threshold ≤ 0)) :=
  ⟨rfl, C6_all_disabled_report (FairviewDetector.new cfgAllOff) envAllFault
    rfl rfl rfl rfl rfl⟩

/-- C2: under nonnegative configured weights (which validation guarantees),
every score a scan cycle emits lies in [0,1]: the fused overall_risk_score,
the risk_score of every emitted SuspiciousProcess, the hardware module's
(reported) risk_score, and the VM module's confidence_score. -/
theorem C2_scores_bounded (st : FairviewDetector) (env : ScanEnv)
    (hw1 : 0 ≤ st.config.weights.process_risk)
    (hw2 : 0 ≤ st.config.weights.overlay_risk)
    (hw3 : 0 ≤ st.config.weights.audio_risk)
    (hw4 : 0 ≤ st.config.weights.hardware_risk)
    (hw5 : 0 ≤ st.config.weights.vm_risk) :
    (0 ≤ ((FairviewDetector.scan st env).2).overall_risk_score
      ∧ ((FairviewDetector.scan st env).2).overall_risk_score ≤ 1)
    ∧ (∀ q ∈ ((FairviewDetector.scan st env).2).suspicious_processes,
        0 ≤ q.risk_score ∧ q.risk_score ≤ 1)
    ∧ (∀ hr, ((FairviewDetector.scan st env).2).hardware_suspicion = some hr →
        0 ≤ hr.risk_score ∧ hr.risk_score ≤ 1)
    ∧ (∀ v, ((FairviewDetector.scan st env).2).vm_detection = some v →
        0 ≤ v.confidence_score ∧ v.confidence_score ≤ 1) := by
  have hprocs : ∀ q ∈ (scanProcs st env).1, 0 ≤ q.risk_score ∧ q.risk_score ≤ 1 := by
    unfold scanProcs
    exact runModule_fst st.config.monitoring.enable_process_monitoring env.procs
      (fun pe => scan_for_suspicious_processes st pe) [] "Process monitoring module failed"
      (fun l => ∀ q ∈ l, 0 ≤ q.risk_score ∧ q.risk_score ≤ 1)
      (by intro q hq; simp at hq)
      (fun pe => scan_procs_bounds st pe)
  have hhw : ∀ hs, (scanHardware st env).1 = some hs →
      0 ≤ hs.risk_score ∧ hs.risk_score ≤ 1 := by
    unfold scanHardware
    exact runModule_fst st.config.monitoring.enable_hardware_monitoring env.hardware
      (fun he => some (st.hardware_detector.detect_hardware_cheating he.current he.remote_desktop))
      none "Hardware detection module failed"
      (fun o => ∀ hs, o = some hs → 0 ≤ hs.risk_score ∧ hs.risk_score ≤ 1)
      (by intro hs h; exact absurd h (by simp))
      (by intro he hs h
          injection h with h'
          rw [← h']
          exact hw_detect_bounds st.hardware_detector he.current he.remote_desktop)
  have hvm : ∀ v, (scanVm st env).1 = some v →
      0 ≤ v.confidence_score ∧ v.confidence_score ≤ 1 := by
    unfold scanVm
    exact runModule_fst st.config.monitoring.enable_vm_detection env.vm
      (fun ve => some (VmDetector.detect ve)) none "VM detection module failed"
      (fun o => ∀ v, o = some v → 0 ≤ v.confidence_score ∧ v.confidence_score ≤ 1)
      (by intro v h; exact absurd h (by simp))
      (by intro ve v h
          injection h with h'
          rw [← h']
          exact vm_detect_bounds ve)
  refine ⟨?_, ?_, ?_, ?_⟩
  · exact calc_risk_bounds st.config (scanProcs st env).1 (scanOverlays st env).1
      (scanAudio st env).1 (scanHardware st env).1 (scanVm st env).1
      hw1 hw2 hw3 hw4 hw5
      (fun p hp => (hprocs p hp).1)
      (fun h hh => (hhw h hh).1)
      (fun v hv => (hvm v hv).1)
  · exact hprocs
  · intro hr hmem
    have hmem' : ((scanHardware st env).1.map (fun hs =>
        let s := summarize_hardware hs
        let baseline_count := st.hardware_detector.get_baseline.map (fun b => b.display_count)
        let display_changed := match baseline_count with
          | some baseline => baseline != s.1
          | none => false
        { risk_score := hs.risk_score
          display_count := s.1
          has_virtual_display := s.2.1
          has_hdmi_splitter := s.2.2.1
          remote_desktop_active := s.2.2.2
          flags := hs.flags
          baseline_display_count := baseline_count
          display_changed := display_changed : HardwareSuspicionReport })) = some hr := hmem
    rw [Option.map_eq_some'] at hmem'
    obtain ⟨hs, hsome, hfr⟩ := hmem'
    have := hhw hs hsome
    rw [← hfr]
    exact this
  · exact hvm

/-- C2 witness: the default config has nonnegative weights, and with benign
module inputs the cycle's emitted scores are all within [0,1]. -/
theorem C2_scores_bounded_witness :
    (0 ≤ Config.default.weights.process_risk
      ∧ 0 ≤ Config.default.weights.overlay_risk
      ∧ 0 ≤ Config.default.weights.audio_risk
      ∧ 0 ≤ Config.default.weights.hardware_risk
      ∧ 0 ≤ Config.default.weights.vm_risk)
    ∧ ((0 ≤ (((FairviewDetector.new Config.default).scan envBenign).2).overall_risk_score
      ∧ (((FairviewDetector.new Config.default).scan envBenign).2).overall_risk_score ≤ 1)
    ∧ (∀ q ∈ (((FairviewDetector.new Config.default).scan envBenign).2).suspicious_processes,
        0 ≤ q.risk_score ∧ q.risk_score ≤ 1)
    ∧ (∀ hr, (((FairviewDetector.new Config.default).scan envBenign).2).hardware_suspicion = some hr →
        0 ≤ hr.risk_score ∧ hr.risk_score ≤ 1)
    ∧ (∀ v, (((FairviewDetector.new Config.default).scan envBenign).2).vm_detection = some v →
        0 ≤ v.confidence_score ∧ v.confidence_score ≤ 1)) :=
  ⟨⟨by norm_num [Config.default], by norm_num [Config.default], by norm_num [Config.default],
    by norm_num [Config.default], by norm_num [Config.default]⟩,
   C2_scores_bounded (FairviewDetector.new Config.default) envBenign
     (by norm_num [FairviewDetector.new, ProcessMonitor.new, Config.default])
     (by norm_num [FairviewDetector.new, ProcessMonitor.new, Config.default])
     (by norm_num [FairviewDetector.new, ProcessMonitor.new, Config.default])
     (by norm_num [FairviewDetector.new, ProcessMonitor.new, Config.default])
     (by norm_num [FairviewDetector.new, ProcessMonitor.new, Config.default])⟩

end Fairview
